import Mathlib

/-!
Shallow embedding of the RiseAble accessibility-settings subsystem:
  * `src/lib/validations/accessibility.ts` — the five-boolean Zod schema
    (`z.boolean().default(false)` per field, unknown keys stripped);
  * `src/app/api/accessibility/route.ts` — the `GET` and `PUT` handlers over a
    Prisma-backed store (User 1–1 AccessibilitySettings), modelled as explicit
    state passing over a `DB` value with a logical clock for timestamps;
  * `src/hooks/use-apply-accessibility.ts` — the global effect applier over
    document classes/attributes, modelled as functions `String → Bool` /
    `String → Option String`;
  * the `useAccessibility` client-state hook — fetch-once, optimistic update,
    no rollback on persistence failure.
-/

/-- JSON values, as far as the five-boolean schema inspects them (the schema
only reads the runtime type tag of each field, so arrays/objects need no
payload). -/
inductive Json where
  | null
  | bool (b : Bool)
  | num (n : Int)
  | str (s : String)
  | arr
  | obj
deriving DecidableEq, Repr

/-- Zod's `getParsedType` name for a value, reported as `received` in issues. -/
def Json.typeName : Json → String
  | .null => "null"
  | .bool _ => "boolean"
  | .num _ => "number"
  | .str _ => "string"
  | .arr => "array"
  | .obj => "object"

def Json.isBool : Json → Bool
  | .bool _ => true
  | _ => false

/-- A parsed JSON request body: an object, i.e. a list of key/value pairs. -/
def JsonObj : Type := List (String × Json)

/-- Key lookup with JavaScript `JSON.parse` semantics (last duplicate wins). -/
def objGet (o : JsonObj) (k : String) : Option Json :=
  o.foldl (fun acc p => if p.1 = k then some p.2 else acc) none

/-- One element of `ZodError.errors`, as serialized into the 400 response's
`details` array by the `PUT` handler. -/
structure ZodIssue where
  code : String
  expected : String
  received : String
  path : List String
  message : String
deriving DecidableEq, Repr

/-- The `AccessibilitySettings` flag record (`z.infer` of the schema). -/
structure AccessibilitySettings where
  voiceNavigation : Bool
  screenReader : Bool
  highContrast : Bool
  largeText : Bool
  keyboardNav : Bool
deriving DecidableEq, Repr

/-- The five flag names, used to index fields generically. -/
inductive FlagName where
  | voiceNavigation
  | screenReader
  | highContrast
  | largeText
  | keyboardNav
deriving DecidableEq, Repr, Fintype

def FlagName.fieldName : FlagName → String
  | .voiceNavigation => "voiceNavigation"
  | .screenReader => "screenReader"
  | .highContrast => "highContrast"
  | .largeText => "largeText"
  | .keyboardNav => "keyboardNav"

def AccessibilitySettings.get (s : AccessibilitySettings) : FlagName → Bool
  | .voiceNavigation => s.voiceNavigation
  | .screenReader => s.screenReader
  | .highContrast => s.highContrast
  | .largeText => s.largeText
  | .keyboardNav => s.keyboardNav

def AccessibilitySettings.set (s : AccessibilitySettings) :
    FlagName → Bool → AccessibilitySettings
  | .voiceNavigation, v => { s with voiceNavigation := v }
  | .screenReader, v => { s with screenReader := v }
  | .highContrast, v => { s with highContrast := v }
  | .largeText, v => { s with largeText := v }
  | .keyboardNav, v => { s with keyboardNav := v }

/-- `DEFAULT_SETTINGS` from the client hook; also the server-side default row
contents (`voiceNavigation: false, …, keyboardNav: false`). -/
def DEFAULT_SETTINGS : AccessibilitySettings :=
  { voiceNavigation := false
    screenReader := false
    highContrast := false
    largeText := false
    keyboardNav := false }

/-- The `invalid_type` issue Zod raises for a non-boolean field value. -/
def mkInvalidTypeIssue (name : String) (j : Json) : ZodIssue :=
  { code := "invalid_type"
    expected := "boolean"
    received := j.typeName
    path := [name]
    message := s!"Expected boolean, received {j.typeName}" }

/-- Per-field issue of `z.boolean().default(false)`: a missing key takes the
default (no issue), a boolean passes, anything else is an `invalid_type`
issue. -/
def fieldIssue (body : JsonObj) (name : String) : Option ZodIssue :=
  match objGet body name with
  | none => none
  | some (Json.bool _) => none
  | some j => some (mkInvalidTypeIssue name j)

/-- Per-field parsed value of `z.boolean().default(false)`: the boolean when
present, `false` (the default) when the key is missing. Only meaningful when
`fieldIssue` is `none`. -/
def fieldValue (body : JsonObj) (name : String) : Bool :=
  match objGet body name with
  | some (Json.bool b) => b
  | _ => false

/-- `AccessibilitySettingsSchema.parse`: collects one `invalid_type` issue per
mistyped field (in schema key order), strips unknown keys, and succeeds with
the field values (defaults filled in) iff no issue arose. -/
def zodParse (body : JsonObj) : Except (List ZodIssue) AccessibilitySettings :=
  let issues := [fieldIssue body "voiceNavigation",
                 fieldIssue body "screenReader",
                 fieldIssue body "highContrast",
                 fieldIssue body "largeText",
                 fieldIssue body "keyboardNav"].filterMap id
  if issues = [] then
    .ok { voiceNavigation := fieldValue body "voiceNavigation"
          screenReader := fieldValue body "screenReader"
          highContrast := fieldValue body "highContrast"
          largeText := fieldValue body "largeText"
          keyboardNav := fieldValue body "keyboardNav" }
  else
    .error issues

/-- One row of the `AccessibilitySettings` table (Prisma model): id, unique
`userId` foreign key, the five flags, and timestamps (modelled on a logical
clock). -/
structure SettingsRecord where
  id : Nat
  userId : String
  voiceNavigation : Bool
  screenReader : Bool
  highContrast : Bool
  largeText : Bool
  keyboardNav : Bool
  createdAt : Nat
  updatedAt : Nat
deriving DecidableEq, Repr

def SettingsRecord.flags (r : SettingsRecord) : AccessibilitySettings :=
  { voiceNavigation := r.voiceNavigation
    screenReader := r.screenReader
    highContrast := r.highContrast
    largeText := r.largeText
    keyboardNav := r.keyboardNav }

/-- The persistent store: the `User` table (only ids matter here), the
settings table, an id generator, and a logical clock driving
`createdAt`/`updatedAt`. -/
structure DB where
  users : List String
  settings : List SettingsRecord
  nextId : Nat
  now : Nat
deriving DecidableEq, Repr

/-- `prisma.accessibilitySettings.findUnique({ where: { userId } })`. -/
def findSettings (db : DB) (userId : String) : Option SettingsRecord :=
  db.settings.find? (fun r => r.userId = userId)

/-- `prisma.user.findUnique` + `prisma.user.create` chain of both handlers:
ensure a `User` row exists for the id (FK requirement). -/
def ensureUser (db : DB) (userId : String) : DB :=
  if userId ∈ db.users then db
  else { db with users := userId :: db.users }

/-- `prisma.accessibilitySettings.create`: insert a fresh row with the given
flags; `createdAt = updatedAt = now`, then advance the clock. -/
def createSettings (db : DB) (userId : String)
    (flags : AccessibilitySettings) : SettingsRecord × DB :=
  let r : SettingsRecord :=
    { id := db.nextId
      userId := userId
      voiceNavigation := flags.voiceNavigation
      screenReader := flags.screenReader
      highContrast := flags.highContrast
      largeText := flags.largeText
      keyboardNav := flags.keyboardNav
      createdAt := db.now
      updatedAt := db.now }
  (r, { db with settings := r :: db.settings
                nextId := db.nextId + 1
                now := db.now + 1 })

/-- `prisma.accessibilitySettings.upsert({ where: { userId }, update, create })`:
replace all five flags and bump `updatedAt` when a row exists, otherwise
insert a fresh row with the flags. -/
def upsertSettings (db : DB) (userId : String)
    (flags : AccessibilitySettings) : SettingsRecord × DB :=
  match findSettings db userId with
  | some s =>
      let s' : SettingsRecord :=
        { s with voiceNavigation := flags.voiceNavigation
                 screenReader := flags.screenReader
                 highContrast := flags.highContrast
                 largeText := flags.largeText
                 keyboardNav := flags.keyboardNav
                 updatedAt := db.now }
      (s', { db with
               settings := db.settings.map
                 (fun r => if r.userId = userId then s' else r)
               now := db.now + 1 })
  | none => createSettings db userId flags

/-- Responses the two handlers can produce. -/
inductive ApiResponse where
  | okRecord (r : SettingsRecord)
  | unauthorized
  | validationError (details : List ZodIssue)
  | internalError
deriving DecidableEq, Repr

/-- `req.headers.get('x-user-id') || 'demo-user-1'`: a missing header yields
`null` and an empty header is falsy, so both fall back to the demo id. -/
def getHeaderUserId (header : Option String) : String :=
  match header with
  | none => "demo-user-1"
  | some h => if h = "" then "demo-user-1" else h

/-- `GET /api/accessibility` (route.ts): resolve the user id, 401 on empty id,
ensure the `User` row, return the existing settings row or create the
all-false default row. -/
def handleGET (header : Option String) (db : DB) : ApiResponse × DB :=
  let userId := getHeaderUserId header
  if userId = "" then (.unauthorized, db)
  else
    let db := ensureUser db userId
    match findSettings db userId with
    | some s => (.okRecord s, db)
    | none =>
        let (r, db) := createSettings db userId DEFAULT_SETTINGS
        (.okRecord r, db)

/-- `PUT /api/accessibility` (route.ts): resolve the user id, 401 on empty id,
ensure the `User` row, validate the body against the schema (400 with the
issue list on failure), then upsert the validated flags. -/
def handlePUT (header : Option String) (body : JsonObj) (db : DB) :
    ApiResponse × DB :=
  let userId := getHeaderUserId header
  if userId = "" then (.unauthorized, db)
  else
    let db := ensureUser db userId
    match zodParse body with
    | .error issues => (.validationError issues, db)
    | .ok flags =>
        let (r, db) := upsertSettings db userId flags
        (.okRecord r, db)

/-- Store well-formedness: no stored timestamp is ahead of the clock. -/
def WF (db : DB) : Prop :=
  ∀ r ∈ db.settings, r.updatedAt ≤ db.now

/-! ## Global Effect Applier (`use-apply-accessibility.ts`) -/

/-- The document-level presentation state the applier works on:
`document.documentElement`'s class list (as a membership function) and its
attribute map. -/
@[ext]
structure DomState where
  classes : String → Bool
  attrs : String → Option String

/-- `root.classList.add(c)`. -/
def classListAdd (d : DomState) (c : String) : DomState :=
  { d with classes := fun x => if x = c then true else d.classes x }

/-- `root.classList.remove(c)`. -/
def classListRemove (d : DomState) (c : String) : DomState :=
  { d with classes := fun x => if x = c then false else d.classes x }

/-- `root.setAttribute(k, v)`. -/
def setAttribute (d : DomState) (k v : String) : DomState :=
  { d with attrs := fun x => if x = k then some v else d.attrs x }

/-- `root.removeAttribute(k)`. -/
def removeAttribute (d : DomState) (k : String) : DomState :=
  { d with attrs := fun x => if x = k then none else d.attrs x }

/-- The effect body of `useApplyAccessibilitySettings`, in source order: high
contrast class, large text class, keyboard-nav class + attribute, screen
reader attribute, voice navigation attribute. -/
def applySettings (s : AccessibilitySettings) (root : DomState) : DomState :=
  let root :=
    if s.highContrast then classListAdd root "high-contrast"
    else classListRemove root "high-contrast"
  let root :=
    if s.largeText then classListAdd root "large-text"
    else classListRemove root "large-text"
  let root :=
    if s.keyboardNav then
      setAttribute (classListAdd root "keyboard-nav") "data-keyboard-nav" "true"
    else
      classListRemove (removeAttribute root "data-keyboard-nav") "keyboard-nav"
  let root :=
    if s.screenReader then setAttribute root "data-screen-reader" "true"
    else removeAttribute root "data-screen-reader"
  let root :=
    if s.voiceNavigation then setAttribute root "data-voice-nav" "true"
    else removeAttribute root "data-voice-nav"
  root

/-- Whether the global marker(s) for a flag are present in a DOM state
(`keyboardNav` owns both a class and an attribute). -/
def markerPresent (f : FlagName) (d : DomState) : Bool :=
  match f with
  | .highContrast => d.classes "high-contrast"
  | .largeText => d.classes "large-text"
  | .keyboardNav =>
      d.classes "keyboard-nav" && (d.attrs "data-keyboard-nav" == some "true")
  | .screenReader => d.attrs "data-screen-reader" == some "true"
  | .voiceNavigation => d.attrs "data-voice-nav" == some "true"

/-! ## Settings Client State (`useAccessibility`) -/

/-- The hook's state triple: `settings`, `isLoading`, `error`. -/
structure ClientState where
  settings : AccessibilitySettings
  isLoading : Bool
  error : Option String
deriving DecidableEq, Repr

/-- Hook state right after `useState` initialization: defaults, loading. -/
def initialClientState : ClientState :=
  { settings := DEFAULT_SETTINGS, isLoading := true, error := none }

/-- The possible outcomes of the mount-time `fetch` of `/api/accessibility`,
as the `fetchSettings` closure distinguishes them. -/
inductive FetchResult where
  | ok (flags : AccessibilitySettings)
  | httpError (status : Nat) (msg : String)
  | networkError (msg : String)
  | unknownFailure
deriving DecidableEq, Repr

/-- The `fetchSettings` effect: set loading, then either store the fetched
flags and clear the error, or record a message and fall back to
`DEFAULT_SETTINGS`; the `finally` block always clears loading. -/
def fetchSettings (r : FetchResult) (st : ClientState) : ClientState :=
  let st := { st with isLoading := true }
  let st :=
    match r with
    | .ok flags => { st with settings := flags, error := none }
    | .httpError status msg =>
        { st with error := some s!"Failed to fetch settings: {status} {msg}"
                  settings := DEFAULT_SETTINGS }
    | .networkError msg =>
        { st with error := some msg, settings := DEFAULT_SETTINGS }
    | .unknownFailure =>
        { st with error := some "Unknown error occurred"
                  settings := DEFAULT_SETTINGS }
  { st with isLoading := false }

/-- The synchronous part of `updateSetting(key, value)`: merge the one flag
into local state and hand the full merged flag set to `persistSettings`.
Returns the new state and the payload sent to the service. -/
def updateSetting (st : ClientState) (key : FlagName) (value : Bool) :
    ClientState × AccessibilitySettings :=
  let newSettings := st.settings.set key value
  ({ st with settings := newSettings }, newSettings)

/-- Outcome of the `PUT` issued by `persistSettings`. -/
inductive PersistResult where
  | ok
  | fail (msg : String)
deriving DecidableEq, Repr

/-- The state update `persistSettings` performs when its request settles:
clear the error on success, record the failure message otherwise — the
flag values are never touched (no rollback). -/
def persistSettingsEffect (r : PersistResult) (st : ClientState) : ClientState :=
  match r with
  | .ok => { st with error := none }
  | .fail msg => { st with error := some msg }

/-! ## Concrete fixtures used by witnesses and counterexamples -/

def ApiResponse.isValidationError : ApiResponse → Bool
  | .validationError _ => true
  | _ => false

/-- An empty store: no users, no settings rows, clock at zero. -/
def db0 : DB := { users := [], settings := [], nextId := 0, now := 0 }

/-- A well-formed `PUT` body carrying all five flags as `true`. -/
def bodyAllTrue : JsonObj :=
  [("voiceNavigation", Json.bool true), ("screenReader", Json.bool true),
   ("highContrast", Json.bool true), ("largeText", Json.bool true),
   ("keyboardNav", Json.bool true)]

def allTrueSettings : AccessibilitySettings :=
  { voiceNavigation := true, screenReader := true, highContrast := true,
    largeText := true, keyboardNav := true }

/-- A body whose `voiceNavigation` field is a string, not a boolean. -/
def bodyMistyped : JsonObj := [("voiceNavigation", Json.str "yes")]

/-- A body carrying only `voiceNavigation`, omitting the other four fields. -/
def bodyOnlyVoice : JsonObj := [("voiceNavigation", Json.bool true)]

/-- A stored settings row for `u1` with `highContrast` persisted as `true`. -/
def storedHighContrast : SettingsRecord :=
  { id := 0, userId := "u1", voiceNavigation := false, screenReader := false,
    highContrast := true, largeText := false, keyboardNav := false,
    createdAt := 0, updatedAt := 0 }

/-- A store in which `u1` already has `storedHighContrast` persisted. -/
def dbWithHC : DB :=
  { users := ["u1"], settings := [storedHighContrast], nextId := 1, now := 1 }

/-! ## Helper lemmas: the Global Effect Applier -/

/-- Pointwise description of the class list after one applier run: the three
managed classes match their flags, everything else is untouched. -/
theorem applySettings_classes (s : AccessibilitySettings) (d : DomState)
    (c : String) :
    (applySettings s d).classes c =
      if c = "high-contrast" then s.highContrast
      else if c = "large-text" then s.largeText
      else if c = "keyboard-nav" then s.keyboardNav
      else d.classes c := by
  rcases s with ⟨vn, sr, hc, lt, kn⟩
  simp only [applySettings, classListAdd, classListRemove, setAttribute,
    removeAttribute]
  cases hc <;> cases lt <;> cases kn <;> cases sr <;> cases vn <;>
    simp <;>
    by_cases h1 : c = "high-contrast" <;> by_cases h2 : c = "large-text" <;>
    by_cases h3 : c = "keyboard-nav" <;> simp_all

/-- Pointwise description of the attribute map after one applier run: the
three managed attributes match their flags, everything else is untouched. -/
theorem applySettings_attrs (s : AccessibilitySettings) (d : DomState)
    (a : String) :
    (applySettings s d).attrs a =
      if a = "data-voice-nav" then
        (if s.voiceNavigation then some "true" else none)
      else if a = "data-screen-reader" then
        (if s.screenReader then some "true" else none)
      else if a = "data-keyboard-nav" then
        (if s.keyboardNav then some "true" else none)
      else d.attrs a := by
  rcases s with ⟨vn, sr, hc, lt, kn⟩
  simp only [applySettings, classListAdd, classListRemove, setAttribute,
    removeAttribute]
  cases hc <;> cases lt <;> cases kn <;> cases sr <;> cases vn <;> simp

/-- A later applier run fully overrides an earlier one: only the last flag
set matters (full reconciliation). -/
theorem applySettings_applySettings (s s' : AccessibilitySettings)
    (d : DomState) :
    applySettings s (applySettings s' d) = applySettings s d := by
  ext x
  · rw [applySettings_classes, applySettings_classes, applySettings_classes]
    split_ifs <;> rfl
  · rw [applySettings_attrs, applySettings_attrs, applySettings_attrs]
    split_ifs <;> rfl

/-- After an applier run, each flag's marker is present iff the flag is set,
and it depends on no other flag. -/
theorem markerPresent_applySettings (f : FlagName) (s : AccessibilitySettings)
    (d : DomState) : markerPresent f (applySettings s d) = s.get f := by
  cases f with
  | highContrast =>
      simp [markerPresent, applySettings_classes, AccessibilitySettings.get]
  | largeText =>
      simp [markerPresent, applySettings_classes, AccessibilitySettings.get]
  | keyboardNav =>
      simp only [markerPresent, applySettings_classes, applySettings_attrs,
        AccessibilitySettings.get]
      cases s.keyboardNav <;> simp
  | screenReader =>
      simp only [markerPresent, applySettings_attrs,
        AccessibilitySettings.get]
      cases s.screenReader <;> simp
  | voiceNavigation =>
      simp only [markerPresent, applySettings_attrs,
        AccessibilitySettings.get]
      cases s.voiceNavigation <;> simp

/-! ## Helper lemmas: identity resolution and store operations -/

/-- The resolved user id is never empty: the `|| 'demo-user-1'` fallback
catches both the missing and the empty header. -/
theorem getHeaderUserId_ne_empty (h : Option String) : getHeaderUserId h ≠ "" := by
  cases h with
  | none => simp [getHeaderUserId]
  | some s =>
      simp only [getHeaderUserId]
      split_ifs with hs
      · simp
      · exact hs

theorem getHeaderUserId_some (u : String) (hu : u ≠ "") :
    getHeaderUserId (some u) = u := by
  simp [getHeaderUserId, hu]

theorem ensureUser_settings (db : DB) (u : String) :
    (ensureUser db u).settings = db.settings := by
  unfold ensureUser; split_ifs <;> rfl

theorem ensureUser_now (db : DB) (u : String) :
    (ensureUser db u).now = db.now := by
  unfold ensureUser; split_ifs <;> rfl

theorem mem_ensureUser_users (db : DB) (u : String) :
    u ∈ (ensureUser db u).users := by
  unfold ensureUser; split_ifs with h
  · exact h
  · exact List.mem_cons_self _ _

theorem ensureUser_of_mem (db : DB) (u : String) (h : u ∈ db.users) :
    ensureUser db u = db := by
  unfold ensureUser; simp [h]

theorem findSettings_ensureUser (db : DB) (u v : String) :
    findSettings (ensureUser db u) v = findSettings db v := by
  unfold findSettings; rw [ensureUser_settings]

theorem createSettings_users (db : DB) (u : String)
    (fl : AccessibilitySettings) : (createSettings db u fl).2.users = db.users :=
  rfl

/-- Replacing every row keyed `u` by `s'` makes `s'` the first row found for
`u`, provided some row for `u` existed. -/
theorem find?_map_replace (l : List SettingsRecord) (u : String)
    (s' : SettingsRecord) (hs' : s'.userId = u) (s : SettingsRecord)
    (hfind : l.find? (fun r => r.userId = u) = some s) :
    (l.map (fun r => if r.userId = u then s' else r)).find?
      (fun r => r.userId = u) = some s' := by
  induction l with
  | nil => simp at hfind
  | cons a t ih =>
      by_cases ha : a.userId = u
      · simp [ha, hs']
      · simp only [List.find?_cons_of_neg, ha, decide_eq_true_eq,
          not_false_iff] at hfind
        simp only [List.map_cons, if_neg ha]
        rw [List.find?_cons_of_neg _ (by simpa using ha)]
        exact ih hfind

theorem upsertSettings_flags (db : DB) (u : String)
    (fl : AccessibilitySettings) : (upsertSettings db u fl).1.flags = fl := by
  unfold upsertSettings
  cases hfind : findSettings db u <;> simp [createSettings, SettingsRecord.flags]

theorem upsertSettings_userId (db : DB) (u : String)
    (fl : AccessibilitySettings) : (upsertSettings db u fl).1.userId = u := by
  unfold upsertSettings
  cases hfind : findSettings db u with
  | none => simp [createSettings]
  | some s =>
      have hs : s.userId = u := by
        have := List.find?_some hfind
        simpa using this
      simp [hs]

theorem upsertSettings_updatedAt (db : DB) (u : String)
    (fl : AccessibilitySettings) :
    (upsertSettings db u fl).1.updatedAt = db.now := by
  unfold upsertSettings
  cases hfind : findSettings db u <;> simp [createSettings]

theorem upsertSettings_users (db : DB) (u : String)
    (fl : AccessibilitySettings) : (upsertSettings db u fl).2.users = db.users := by
  unfold upsertSettings
  cases hfind : findSettings db u <;> simp [createSettings]

/-- After an upsert, the row the upsert returned is the row a lookup finds. -/
theorem upsertSettings_find (db : DB) (u : String)
    (fl : AccessibilitySettings) :
    findSettings (upsertSettings db u fl).2 u = some (upsertSettings db u fl).1 := by
  unfold upsertSettings
  cases hfind : findSettings db u with
  | none => simp [createSettings, findSettings]
  | some s =>
      have hs : s.userId = u := by
        have := List.find?_some hfind
        simpa using this
      simp only [findSettings]
      exact find?_map_replace db.settings u _ (by simp [hs]) s hfind

/-! ## Helper lemmas: schema validation -/

/-- When every field is either missing or boolean, `parse` succeeds and fills
missing fields with the default `false`. -/
theorem zodParse_ok_of_noIssues (body : JsonObj)
    (h : ∀ f : FlagName, fieldIssue body f.fieldName = none) :
    zodParse body =
      .ok { voiceNavigation := fieldValue body "voiceNavigation"
            screenReader := fieldValue body "screenReader"
            highContrast := fieldValue body "highContrast"
            largeText := fieldValue body "largeText"
            keyboardNav := fieldValue body "keyboardNav" } := by
  have h1 := h .voiceNavigation
  have h2 := h .screenReader
  have h3 := h .highContrast
  have h4 := h .largeText
  have h5 := h .keyboardNav
  simp only [FlagName.fieldName] at h1 h2 h3 h4 h5
  simp [zodParse, h1, h2, h3, h4, h5]

/-- A mistyped field makes `parse` fail, and its issue is in the error list. -/
theorem zodParse_error_of_issue (body : JsonObj) (f : FlagName) (i : ZodIssue)
    (h : fieldIssue body f.fieldName = some i) :
    ∃ issues, zodParse body = .error issues ∧ i ∈ issues := by
  have hmem : some i ∈ [fieldIssue body "voiceNavigation",
                 fieldIssue body "screenReader",
                 fieldIssue body "highContrast",
                 fieldIssue body "largeText",
                 fieldIssue body "keyboardNav"] := by
    cases f <;> simp only [FlagName.fieldName] at h <;> simp [h]
  have hin : i ∈ [fieldIssue body "voiceNavigation",
                 fieldIssue body "screenReader",
                 fieldIssue body "highContrast",
                 fieldIssue body "largeText",
                 fieldIssue body "keyboardNav"].filterMap id := by
    rw [List.mem_filterMap]
    exact ⟨some i, hmem, rfl⟩
  refine ⟨_, ?_, hin⟩
  unfold zodParse
  rw [if_neg (List.ne_nil_of_mem hin)]

/-! ## Helper lemmas: handler characterizations -/

theorem handleGET_found (u : String) (hu : u ≠ "") (db : DB)
    (s : SettingsRecord) (hf : findSettings db u = some s) :
    handleGET (some u) db = (.okRecord s, ensureUser db u) := by
  unfold handleGET
  simp only [getHeaderUserId_some u hu, if_neg hu, findSettings_ensureUser, hf]

theorem handleGET_notFound (u : String) (hu : u ≠ "") (db : DB)
    (hf : findSettings db u = none) :
    handleGET (some u) db =
      (ApiResponse.okRecord (createSettings (ensureUser db u) u DEFAULT_SETTINGS).1,
       (createSettings (ensureUser db u) u DEFAULT_SETTINGS).2) := by
  unfold handleGET
  simp only [getHeaderUserId_some u hu, if_neg hu, findSettings_ensureUser, hf]

theorem handlePUT_ok (u : String) (hu : u ≠ "") (body : JsonObj) (db : DB)
    (P : AccessibilitySettings) (hP : zodParse body = .ok P) :
    handlePUT (some u) body db =
      (ApiResponse.okRecord (upsertSettings (ensureUser db u) u P).1,
       (upsertSettings (ensureUser db u) u P).2) := by
  unfold handlePUT
  simp only [getHeaderUserId_some u hu, if_neg hu, hP]

theorem handlePUT_invalid (u : String) (hu : u ≠ "") (body : JsonObj) (db : DB)
    (issues : List ZodIssue) (hP : zodParse body = .error issues) :
    handlePUT (some u) body db = (.validationError issues, ensureUser db u) := by
  unfold handlePUT
  simp only [getHeaderUserId_some u hu, if_neg hu, hP]

/-- Every `GET` ends in a 200 with a record, and afterwards a settings row
exists for the resolved user. -/
theorem handleGET_total (h : Option String) (db : DB) :
    ∃ r db', handleGET h db = (.okRecord r, db') ∧
      findSettings db' (getHeaderUserId h) = some r := by
  have hu := getHeaderUserId_ne_empty h
  cases hf : findSettings db (getHeaderUserId h) with
  | some s =>
      refine ⟨s, ensureUser db (getHeaderUserId h), ?_, ?_⟩
      · unfold handleGET
        simp only [if_neg hu, findSettings_ensureUser, hf]
      · rw [findSettings_ensureUser]; exact hf
  | none =>
      refine ⟨(createSettings (ensureUser db (getHeaderUserId h))
                (getHeaderUserId h) DEFAULT_SETTINGS).1,
              (createSettings (ensureUser db (getHeaderUserId h))
                (getHeaderUserId h) DEFAULT_SETTINGS).2, ?_, ?_⟩
      · unfold handleGET
        simp only [if_neg hu, findSettings_ensureUser, hf]
      · simp [createSettings, findSettings]

/-- The handlers see the header only through the resolved user id. -/
theorem handleGET_header_congr (h₁ h₂ : Option String) (db : DB)
    (h : getHeaderUserId h₁ = getHeaderUserId h₂) :
    handleGET h₁ db = handleGET h₂ db := by
  unfold handleGET
  rw [h]

theorem handlePUT_header_congr (h₁ h₂ : Option String) (body : JsonObj) (db : DB)
    (h : getHeaderUserId h₁ = getHeaderUserId h₂) :
    handlePUT h₁ body db = handlePUT h₂ body db := by
  unfold handlePUT
  rw [h]

theorem handleGET_ne_unauthorized (h : Option String) (db : DB) :
    (handleGET h db).1 ≠ ApiResponse.unauthorized := by
  obtain ⟨r, db', heq, -⟩ := handleGET_total h db
  rw [heq]
  simp

theorem handlePUT_ne_unauthorized (h : Option String) (body : JsonObj) (db : DB) :
    (handlePUT h body db).1 ≠ ApiResponse.unauthorized := by
  unfold handlePUT
  rw [if_neg (getHeaderUserId_ne_empty h)]
  cases hz : zodParse body with
  | error issues => simp
  | ok flags =>
      rcases hup : upsertSettings (ensureUser db (getHeaderUserId h))
        (getHeaderUserId h) flags with ⟨r, db'⟩
      simp

/-! ## Claim theorems -/

/-- Claim C1, counterexample: the completely empty `PUT` payload — every one
of the five flag fields missing — is not rejected with a validation error;
the handler accepts it (200 with a freshly created all-false row). This
refutes the claim that a payload missing one of the five fields is rejected
with HTTP 400. -/
theorem C1_counterexample :
    ApiResponse.isValidationError (handlePUT (some "u1") ([] : JsonObj) db0).1 = false ∧
    (handlePUT (some "u1") ([] : JsonObj) db0).1 =
      ApiResponse.okRecord
        { id := 0, userId := "u1", voiceNavigation := false, screenReader := false,
          highContrast := false, largeText := false, keyboardNav := false,
          createdAt := 0, updatedAt := 0 } := by
  constructor <;> rfl

/-- Claim C1, amended: a `PUT` payload with a non-boolean value for any of
the five flag fields is rejected with a validation error whose details name
that exact field, its expected type `boolean`, and the received type; a
payload missing some of the five fields is NOT rejected — each missing field
defaults to `false` — and every payload the schema accepts (in particular
each of the 32 all-five-boolean combinations) yields a 200 whose persisted
flags equal the parsed payload. -/
theorem C1_theorem :
    (∀ (u : String) (body : JsonObj) (db : DB) (f : FlagName) (j : Json),
        u ≠ "" → objGet body f.fieldName = some j → j.isBool = false →
        ∃ issues, (handlePUT (some u) body db).1 = .validationError issues ∧
          mkInvalidTypeIssue f.fieldName j ∈ issues) ∧
    (∀ (u : String) (body : JsonObj) (db : DB) (P : AccessibilitySettings),
        u ≠ "" → zodParse body = .ok P →
        ∃ r db', handlePUT (some u) body db = (.okRecord r, db') ∧ r.flags = P) ∧
    (∀ (body : JsonObj) (P : AccessibilitySettings) (f : FlagName),
        zodParse body = .ok P → objGet body f.fieldName = none →
        P.get f = false) := by
  refine ⟨?_, ?_, ?_⟩
  · intro u body db f j hu hget hbool
    have hissue : fieldIssue body f.fieldName = some (mkInvalidTypeIssue f.fieldName j) := by
      unfold fieldIssue
      rw [hget]
      cases j <;> simp_all [Json.isBool]
    obtain ⟨issues, herr, hmem⟩ := zodParse_error_of_issue body f _ hissue
    exact ⟨issues, by rw [handlePUT_invalid u hu body db issues herr], hmem⟩
  · intro u body db P hu hP
    exact ⟨(upsertSettings (ensureUser db u) u P).1,
           (upsertSettings (ensureUser db u) u P).2,
           handlePUT_ok u hu body db P hP,
           upsertSettings_flags _ _ _⟩
  · intro body P f hP hnone
    simp only [zodParse] at hP
    split at hP
    · cases hP
      cases f <;> simp_all [AccessibilitySettings.get, fieldValue,
        FlagName.fieldName]
    · exact Except.noConfusion hP

/-- Witness for C1: a string-valued `voiceNavigation` is rejected naming
that field; the all-true payload is accepted; the empty payload parses to
all-false. -/
theorem C1_witness :
    (objGet bodyMistyped (FlagName.voiceNavigation.fieldName) = some (Json.str "yes") ∧
     (Json.str "yes").isBool = false ∧
     ∃ issues, (handlePUT (some "u1") bodyMistyped db0).1 = .validationError issues ∧
       mkInvalidTypeIssue FlagName.voiceNavigation.fieldName (Json.str "yes") ∈ issues) ∧
    (zodParse bodyAllTrue = .ok allTrueSettings ∧
     ∃ r db', handlePUT (some "u1") bodyAllTrue db0 = (.okRecord r, db') ∧
       r.flags = allTrueSettings) ∧
    (zodParse ([] : JsonObj) = .ok DEFAULT_SETTINGS ∧
     objGet ([] : JsonObj) (FlagName.highContrast.fieldName) = none ∧
     DEFAULT_SETTINGS.get .highContrast = false) :=
  ⟨⟨rfl, rfl,
    C1_theorem.1 "u1" bodyMistyped db0 .voiceNavigation (Json.str "yes")
      (by decide) rfl rfl⟩,
   ⟨rfl,
    C1_theorem.2.1 "u1" bodyAllTrue db0 allTrueSettings (by decide) rfl⟩,
   ⟨rfl, rfl,
    C1_theorem.2.2 ([] : JsonObj) DEFAULT_SETTINGS .highContrast rfl rfl⟩⟩

/-- Claim C2: for every user id and valid five-boolean payload, `PUT`
followed by `GET` returns a record whose flags equal the payload exactly,
and the `updatedAt` of the record the read returns is at least the
`updatedAt` any prior record had before the write. -/
theorem C2_theorem (u : String) (body : JsonObj) (db : DB)
    (P : AccessibilitySettings) (hu : u ≠ "") (hP : zodParse body = .ok P)
    (hWF : WF db) :
    ∃ (r : SettingsRecord) (db₁ db₂ : DB),
      handlePUT (some u) body db = (.okRecord r, db₁) ∧
      handleGET (some u) db₁ = (.okRecord r, db₂) ∧
      r.flags = P ∧
      ∀ s₀, findSettings db u = some s₀ → s₀.updatedAt ≤ r.updatedAt := by
  refine ⟨(upsertSettings (ensureUser db u) u P).1,
          (upsertSettings (ensureUser db u) u P).2,
          ensureUser (upsertSettings (ensureUser db u) u P).2 u,
          handlePUT_ok u hu body db P hP, ?_, upsertSettings_flags _ _ _, ?_⟩
  · exact handleGET_found u hu _ _ (upsertSettings_find _ _ _)
  · intro s₀ hs₀
    have hsmem : s₀ ∈ db.settings := List.mem_of_find?_eq_some hs₀
    have hle : s₀.updatedAt ≤ db.now := hWF s₀ hsmem
    rw [upsertSettings_updatedAt, ensureUser_now]
    exact hle

/-- Witness for C2: writing the all-true payload for `u1` into the empty
store and reading it back returns exactly the all-true flags. -/
theorem C2_witness :
    ("u1" : String) ≠ "" ∧ zodParse bodyAllTrue = .ok allTrueSettings ∧ WF db0 ∧
    (∃ (r : SettingsRecord) (db₁ db₂ : DB),
      handlePUT (some "u1") bodyAllTrue db0 = (.okRecord r, db₁) ∧
      handleGET (some "u1") db₁ = (.okRecord r, db₂) ∧
      r.flags = allTrueSettings ∧
      ∀ s₀, findSettings db0 "u1" = some s₀ → s₀.updatedAt ≤ r.updatedAt) :=
  ⟨by decide, rfl, by simp [WF, db0],
   C2_theorem "u1" bodyAllTrue db0 allTrueSettings (by decide) rfl
     (by simp [WF, db0])⟩

/-- Claim C3: a `GET` for a user with no prior settings row returns an
all-false record for that user, a second `GET` returns the very same record
(same row, store unchanged), and after any successful `GET` a settings row
for the resolved user exists — a `GET` never ends in "not found". -/
theorem C3_theorem (u : String) (db : DB) (hu : u ≠ "")
    (hnone : findSettings db u = none) :
    ∃ (r : SettingsRecord) (db₁ : DB),
      handleGET (some u) db = (.okRecord r, db₁) ∧
      r.flags = DEFAULT_SETTINGS ∧
      r.userId = u ∧
      findSettings db₁ u = some r ∧
      handleGET (some u) db₁ = (.okRecord r, db₁) ∧
      ∀ (h : Option String) (db' : DB),
        ∃ r' db'', handleGET h db' = (.okRecord r', db'') ∧
          findSettings db'' (getHeaderUserId h) = some r' := by
  refine ⟨(createSettings (ensureUser db u) u DEFAULT_SETTINGS).1,
          (createSettings (ensureUser db u) u DEFAULT_SETTINGS).2,
          handleGET_notFound u hu db hnone, rfl, rfl, ?_, ?_, handleGET_total⟩
  · simp [createSettings, findSettings]
  · have hmem : u ∈ (createSettings (ensureUser db u) u DEFAULT_SETTINGS).2.users := by
      rw [createSettings_users]
      exact mem_ensureUser_users db u
    have hfind : findSettings (createSettings (ensureUser db u) u DEFAULT_SETTINGS).2 u =
        some (createSettings (ensureUser db u) u DEFAULT_SETTINGS).1 := by
      simp [createSettings, findSettings]
    have := handleGET_found u hu _ _ hfind
    rwa [ensureUser_of_mem _ _ hmem] at this

/-- Witness for C3: a first `GET` for `u1` on the empty store provisions and
returns the all-false row, and a second `GET` returns the same row. -/
theorem C3_witness :
    ("u1" : String) ≠ "" ∧ findSettings db0 "u1" = none ∧
    (∃ (r : SettingsRecord) (db₁ : DB),
      handleGET (some "u1") db0 = (.okRecord r, db₁) ∧
      r.flags = DEFAULT_SETTINGS ∧
      r.userId = "u1" ∧
      findSettings db₁ "u1" = some r ∧
      handleGET (some "u1") db₁ = (.okRecord r, db₁) ∧
      ∀ (h : Option String) (db' : DB),
        ∃ r' db'', handleGET h db' = (.okRecord r', db'') ∧
          findSettings db'' (getHeaderUserId h) = some r') :=
  ⟨by decide, rfl, C3_theorem "u1" db0 (by decide) rfl⟩

/-- Claim C4, counterexample: a `GET` and a `PUT` with no `x-user-id` header
(no caller identity) do NOT return the Unauthorized response, and both
mutate the store (the user row, and for `PUT` also the settings row, are
created for the substituted demo identity). This refutes the claim that a
request with no identity gets a 401 and causes no mutation. -/
theorem C4_counterexample :
    (handleGET none db0).1 ≠ ApiResponse.unauthorized ∧
    (handleGET none db0).2 ≠ db0 ∧
    (handlePUT none bodyAllTrue db0).1 ≠ ApiResponse.unauthorized ∧
    (handlePUT none bodyAllTrue db0).2 ≠ db0 := by
  refine ⟨?_, ?_, ?_, ?_⟩ <;> decide

/-- Claim C4, amended: a request with no caller identity is not rejected —
both handlers substitute the fixed identity `demo-user-1` and perform the
full operation for that user (mutations included); the Unauthorized branch
is unreachable for every input. -/
theorem C4_theorem :
    (∀ db : DB, handleGET none db = handleGET (some "demo-user-1") db) ∧
    (∀ (body : JsonObj) (db : DB),
        handlePUT none body db = handlePUT (some "demo-user-1") body db) ∧
    (∀ (h : Option String) (db : DB),
        (handleGET h db).1 ≠ ApiResponse.unauthorized) ∧
    (∀ (h : Option String) (body : JsonObj) (db : DB),
        (handlePUT h body db).1 ≠ ApiResponse.unauthorized) :=
  ⟨fun db => handleGET_header_congr none (some "demo-user-1") db rfl,
   fun body db => handlePUT_header_congr none (some "demo-user-1") body db rfl,
   handleGET_ne_unauthorized,
   handlePUT_ne_unauthorized⟩

/-- Claim C5: applying the Global Effect Applier twice with the same flags
leaves the document state (classes and attributes) identical to applying it
once — the applier is idempotent. -/
theorem C5_theorem (s : AccessibilitySettings) (d : DomState) :
    applySettings s (applySettings s d) = applySettings s d :=
  applySettings_applySettings s s d

/-- Claim C6: toggling one flag false→true→false returns the document state
to exactly its pre-toggle (applied) condition, for each flag independently;
and each flag's global marker is present iff that flag is set, regardless of
every other flag's value. -/
theorem C6_theorem :
    (∀ (f : FlagName) (s : AccessibilitySettings) (d : DomState),
        applySettings (s.set f false)
            (applySettings ((s.set f false).set f true)
              (applySettings (s.set f false) d)) =
          applySettings (s.set f false) d) ∧
    (∀ (f : FlagName) (s : AccessibilitySettings) (d : DomState),
        markerPresent f (applySettings s d) = s.get f) :=
  ⟨fun f s d =>
     (applySettings_applySettings (s.set f false) ((s.set f false).set f true)
         (applySettings (s.set f false) d)).trans
       (applySettings_applySettings (s.set f false) (s.set f false) d),
   markerPresent_applySettings⟩

/-- Claim C7: every outcome of the mount-time load ends with the loading
indicator cleared; success stores the fetched flags and clears the error;
every failure keeps the all-false defaults and records a human-readable
message. -/
theorem C7_theorem :
    (∀ (r : FetchResult) (st : ClientState),
        (fetchSettings r st).isLoading = false) ∧
    (∀ (flags : AccessibilitySettings) (st : ClientState),
        fetchSettings (.ok flags) st =
          { settings := flags, isLoading := false, error := none }) ∧
    (∀ (status : Nat) (msg : String) (st : ClientState),
        fetchSettings (.httpError status msg) st =
          { settings := DEFAULT_SETTINGS, isLoading := false,
            error := some s!"Failed to fetch settings: {status} {msg}" }) ∧
    (∀ (msg : String) (st : ClientState),
        fetchSettings (.networkError msg) st =
          { settings := DEFAULT_SETTINGS, isLoading := false, error := some msg }) ∧
    (∀ st : ClientState,
        fetchSettings .unknownFailure st =
          { settings := DEFAULT_SETTINGS, isLoading := false,
            error := some "Unknown error occurred" }) := by
  refine ⟨fun r st => ?_, fun flags st => rfl, fun status msg st => rfl,
          fun msg st => rfl, fun st => rfl⟩
  cases r <;> rfl

/-- Claim C8: `updateSetting(k, v)` synchronously replaces flag `k` by `v` in
local state and hands the full merged five-flag set to persistence; the
persistence outcome never changes the local flags (no rollback), and a
failure only records the error message while the optimistic merged flags
stay in place. -/
theorem C8_theorem :
    (∀ (st : ClientState) (k : FlagName) (v : Bool),
        (updateSetting st k v).1 =
          { settings := st.settings.set k v, isLoading := st.isLoading,
            error := st.error } ∧
        (updateSetting st k v).2 = st.settings.set k v) ∧
    (∀ (st : ClientState) (r : PersistResult),
        (persistSettingsEffect r st).settings = st.settings ∧
        (persistSettingsEffect r st).isLoading = st.isLoading) ∧
    (∀ (st : ClientState) (k : FlagName) (v : Bool) (m : String),
        persistSettingsEffect (.fail m) (updateSetting st k v).1 =
          { settings := st.settings.set k v, isLoading := st.isLoading,
            error := some m }) := by
  refine ⟨fun st k v => ⟨rfl, rfl⟩, fun st r => ?_, fun st k v m => rfl⟩
  cases r <;> exact ⟨rfl, rfl⟩

/-- Claim C9: a `PUT` body omitting any subset of the five flag fields (with
no mistyped recognized field) is accepted; every omitted flag is persisted
as `false` — overwriting whatever was stored — and every present boolean is
persisted as given. -/
theorem C9_theorem (u : String) (db : DB) (body : JsonObj) (hu : u ≠ "")
    (hok : ∀ f : FlagName, fieldIssue body f.fieldName = none) :
    ∃ r db', handlePUT (some u) body db = (.okRecord r, db') ∧
      findSettings db' u = some r ∧
      (∀ f : FlagName, objGet body f.fieldName = none → r.flags.get f = false) ∧
      (∀ (f : FlagName) (b : Bool), objGet body f.fieldName = some (.bool b) →
        r.flags.get f = b) := by
  have hP := zodParse_ok_of_noIssues body hok
  refine ⟨(upsertSettings (ensureUser db u) u _).1,
          (upsertSettings (ensureUser db u) u _).2,
          handlePUT_ok u hu body db _ hP, upsertSettings_find _ _ _, ?_, ?_⟩
  · intro f hnone
    rw [upsertSettings_flags]
    cases f <;> simp_all [AccessibilitySettings.get, fieldValue, FlagName.fieldName]
  · intro f b hsome
    rw [upsertSettings_flags]
    cases f <;> simp_all [AccessibilitySettings.get, fieldValue, FlagName.fieldName]

/-- Witness for C9: with `highContrast` stored `true` for `u1`, a body
carrying only `voiceNavigation: true` is accepted and the persisted row has
`highContrast` back to `false`. -/
theorem C9_witness :
    ("u1" : String) ≠ "" ∧
    (∀ f : FlagName, fieldIssue bodyOnlyVoice f.fieldName = none) ∧
    findSettings dbWithHC "u1" = some storedHighContrast ∧
    storedHighContrast.highContrast = true ∧
    objGet bodyOnlyVoice (FlagName.highContrast.fieldName) = none ∧
    (∃ r db', handlePUT (some "u1") bodyOnlyVoice dbWithHC = (.okRecord r, db') ∧
      findSettings db' "u1" = some r ∧
      (∀ f : FlagName, objGet bodyOnlyVoice f.fieldName = none →
        r.flags.get f = false) ∧
      (∀ (f : FlagName) (b : Bool),
        objGet bodyOnlyVoice f.fieldName = some (.bool b) → r.flags.get f = b)) :=
  ⟨by decide, by decide, rfl, rfl, rfl,
   C9_theorem "u1" dbWithHC bodyOnlyVoice (by decide) (by decide)⟩

/-- Claim C10: when the `x-user-id` header is absent or empty, both handlers
substitute the fixed identity `demo-user-1` and run the full operation for
that user; the resolved user id is never empty, so the 401 branch is
unreachable for every input. -/
theorem C10_theorem :
    (∀ h : Option String, getHeaderUserId h ≠ "") ∧
    (getHeaderUserId none = "demo-user-1" ∧
     getHeaderUserId (some "") = "demo-user-1") ∧
    (∀ db : DB, handleGET (some "") db = handleGET (some "demo-user-1") db ∧
        handleGET none db = handleGET (some "demo-user-1") db) ∧
    (∀ (body : JsonObj) (db : DB),
        handlePUT (some "") body db = handlePUT (some "demo-user-1") body db ∧
        handlePUT none body db = handlePUT (some "demo-user-1") body db) ∧
    (∀ (h : Option String) (db : DB),
        (handleGET h db).1 ≠ ApiResponse.unauthorized ∧
        ∀ body : JsonObj, (handlePUT h body db).1 ≠ ApiResponse.unauthorized) :=
  ⟨getHeaderUserId_ne_empty,
   ⟨rfl, rfl⟩,
   fun db => ⟨handleGET_header_congr (some "") (some "demo-user-1") db rfl,
              handleGET_header_congr none (some "demo-user-1") db rfl⟩,
   fun body db => ⟨handlePUT_header_congr (some "") (some "demo-user-1") body db rfl,
                   handlePUT_header_congr none (some "demo-user-1") body db rfl⟩,
   fun h db => ⟨handleGET_ne_unauthorized h db,
                fun body => handlePUT_ne_unauthorized h body db⟩⟩
